import Mathlib

/-!
Shallow embedding of the `database_module` query builder
(`src/database_module/query/query_builder.py`) and connection pool
(`src/database_module/pool/connection_pool.py`), with theorems checking the
natural-language specification against the code.

Conventions of the embedding:
* Python `DatabaseValue = Union[str, int, float, bool, None]` is modelled by
  the inductive `DBValue` below. A float is represented by the text Python's
  `str(value)` yields for it: the module never observes a float other than
  through `str` (no arithmetic, no comparisons — floats only flow into
  `_format_value` and the identical block in `QueryCondition.to_sql`), so
  this image is an exact abstraction; the IEEE-754 shortest-round-trip repr
  algorithm behind `str` itself stays outside the embedding.
* Python `None`-able fields are `Option`; Python truthiness on strings/lists
  (`if self._from_table:` is false for both `None` and `""`) is made explicit
  at each use site, mirroring the source line by line.
* Python dicts (insertion ordered) are association lists; `dict.get` is
  first-match lookup.
* `raise ValueError(msg)` is modelled by `Except String`.
-/

namespace PyDB

/-- The character `'` (single quote), written via its code point. -/
def quoteChar : Char := Char.ofNat 39

/-- Scalar values: `DatabaseValue = Union[str, int, float, bool, None]` in
`database_base.py` line 11. A float carries the text `str(value)` produces
for it (`3.5` ↦ "3.5", `1e16` ↦ "1e+16", infinity ↦ "inf"); this is an
exact abstraction for this module, which only ever formats floats. -/
inductive DBValue where
  | null
  | boolV (b : Bool)
  | intV (i : Int)
  | floatV (pystr : String)
  | strV (s : String)
deriving DecidableEq, Repr

/-- Discriminator for the float alternative. -/
def DBValue.isFloat : DBValue → Bool
  | .floatV _ => true
  | _ => false

/-- Embeds Python `value.replace("'", "''")` (single-character pattern, so it
rewrites each quote character to two quotes, left to right). -/
def pyReplaceQuote : List Char → List Char
  | [] => []
  | c :: cs =>
    if c = quoteChar then quoteChar :: quoteChar :: pyReplaceQuote cs
    else c :: pyReplaceQuote cs

/-- Source `QueryBuilder._format_value` (query_builder.py lines 541-552); the
identical inline block in `QueryCondition.to_sql` (lines 90-100) is embedded
by this same definition. Branch order in the source is None / str / bool /
other; the constructors are disjoint so a match is faithful. The `else:
str(value)` branch is decimal text for an int and, for a float, the stored
`str()` image (scientific notation or `inf`/`nan` included). -/
def format_value : DBValue → String
  | .null => "NULL"
  | .strV s => "'" ++ String.mk (pyReplaceQuote s.data) ++ "'"
  | .boolV b => if b then "TRUE" else "FALSE"
  | .intV i => toString i
  | .floatV s => s

/-- Python `f"{x}"` on an `Optional[str]`: `None` prints as `"None"`. -/
def pyStr : Option String → String
  | none => "None"
  | some s => s

/-- Source `JoinType` enum (query_builder.py lines 12-33). -/
inductive JoinType where
  | INNER | LEFT | RIGHT | FULL_OUTER | CROSS
deriving DecidableEq, Repr

def JoinType.to_sql : JoinType → String
  | .INNER => "INNER JOIN"
  | .LEFT => "LEFT JOIN"
  | .RIGHT => "RIGHT JOIN"
  | .FULL_OUTER => "FULL OUTER JOIN"
  | .CROSS => "CROSS JOIN"

/-- Source `SortOrder` enum (query_builder.py lines 36-47). -/
inductive SortOrder where
  | ASC | DESC
deriving DecidableEq, Repr

def SortOrder.to_sql : SortOrder → String
  | .ASC => "ASC"
  | .DESC => "DESC"

/-- Source `QueryCondition` (query_builder.py lines 50-116): all six instance
attributes, including the ones a given node leaves at their defaults. -/
inductive QueryCondition where
  | mk (fld : Option String) (op : Option String) (value : DBValue)
       (raw_condition : Option String)
       (sub_conditions : List QueryCondition)
       (logical_operator : Option String)

def QueryCondition.fld : QueryCondition → Option String
  | .mk f _ _ _ _ _ => f

def QueryCondition.op : QueryCondition → Option String
  | .mk _ o _ _ _ _ => o

def QueryCondition.value : QueryCondition → DBValue
  | .mk _ _ v _ _ _ => v

def QueryCondition.raw_condition : QueryCondition → Option String
  | .mk _ _ _ r _ _ => r

def QueryCondition.sub_conditions : QueryCondition → List QueryCondition
  | .mk _ _ _ _ s _ => s

def QueryCondition.logical_operator : QueryCondition → Option String
  | .mk _ _ _ _ _ l => l

/-- Source `QueryCondition.__init__(field, operator, value)` as called by
`QueryBuilder.where`. -/
def QueryCondition.leaf (f o : String) (v : DBValue) : QueryCondition :=
  .mk (some f) (some o) v none [] none

/-- Source `QueryCondition.__init__(raw_condition=raw)` as called by `where_raw`. -/
def QueryCondition.rawLeaf (r : String) : QueryCondition :=
  .mk none none .null (some r) [] none

/-- Source `QueryCondition.__and__` (lines 104-109): fresh node, two children. -/
def QueryCondition.andC (c1 c2 : QueryCondition) : QueryCondition :=
  .mk none none .null none [c1, c2] (some "AND")

/-- Source `QueryCondition.__or__` (lines 111-116). -/
def QueryCondition.orC (c1 c2 : QueryCondition) : QueryCondition :=
  .mk none none .null none [c1, c2] (some "OR")

mutual

/-- Source `QueryCondition.to_sql` (lines 80-102). `if self.raw_condition:` is
Python truthiness (false for `None` and `""`); likewise
`if self.sub_conditions:` is list non-emptiness. The value-formatting block
(lines 90-100) is the shared `format_value`; `toSqlList` is the list
comprehension `[cond.to_sql() for cond in self.sub_conditions]`. -/
def QueryCondition.to_sql : QueryCondition → String
  | .mk f o v raw subs logop =>
    if raw.getD "" ≠ "" then raw.getD ""
    else if subs.isEmpty then
      pyStr f ++ " " ++ pyStr o ++ " " ++ format_value v
    else
      "(" ++ String.intercalate (" " ++ pyStr logop ++ " ")
        (toSqlList subs) ++ ")"

def toSqlList : List QueryCondition → List String
  | [] => []
  | c :: cs => c.to_sql :: toSqlList cs

end

/-- A row / dict of column-value pairs (`Dict[str, DatabaseValue]`),
insertion ordered. -/
abbrev Row := List (String × DBValue)

/-- Python `dict.get(k)`: first binding for `k`, if any. -/
def rowGet (row : Row) (k : String) : Option DBValue :=
  (row.find? (fun p => p.1 == k)).map Prod.snd

/-- Python `d[k] = v` on an insertion-ordered dict: overwrite in place if
the key exists, else append. -/
def dictInsert (d : Row) (k : String) (v : DBValue) : Row :=
  if d.any (fun p => p.1 == k) then
    d.map (fun p => if p.1 == k then (k, v) else p)
  else d ++ [(k, v)]

/-- Statement-kind tag: the four strings ever assigned to
`QueryBuilder._query_type`. -/
inductive QueryType where
  | SELECT | INSERT | UPDATE | DELETE
deriving DecidableEq, Repr

/-- Source `QueryBuilder` state (query_builder.py lines 132-148). -/
structure QueryBuilder where
  _query_type : Option QueryType
  _select_columns : List String
  _from_table : Option String
  _where_conditions : List QueryCondition
  _joins : List String
  _group_by_columns : List String
  _having_clause : Option String
  _order_by_clauses : List String
  _limit_count : Option Int
  _offset_count : Option Int
  _target_table : Option String
  _set_data : Row
  _insert_rows : List Row

/-- Source `QueryBuilder.__init__`. -/
def QueryBuilder.empty : QueryBuilder :=
  { _query_type := none, _select_columns := [], _from_table := none,
    _where_conditions := [], _joins := [], _group_by_columns := [],
    _having_clause := none, _order_by_clauses := [], _limit_count := none,
    _offset_count := none, _target_table := none, _set_data := [],
    _insert_rows := [] }

/-- Source `select` (lines 152-168); the single-string overload appends one element,
so it is the `[col]` instance of the list case. -/
def QueryBuilder.select (b : QueryBuilder) (cols : List String) : QueryBuilder :=
  { b with _query_type := some .SELECT,
           _select_columns := b._select_columns ++ cols }

/-- Source `from_table` (lines 170-181). -/
def QueryBuilder.from_table (b : QueryBuilder) (t : String) : QueryBuilder :=
  { b with _from_table := some t }

/-- Source `where` (lines 185-204); named `where_field` because `where` is a Lean
keyword. -/
def QueryBuilder.where_field (b : QueryBuilder) (f o : String) (v : DBValue) :
    QueryBuilder :=
  { b with _where_conditions := b._where_conditions ++ [QueryCondition.leaf f o v] }

/-- Source `where_condition` (lines 206-217). -/
def QueryBuilder.where_condition (b : QueryBuilder) (c : QueryCondition) :
    QueryBuilder :=
  { b with _where_conditions := b._where_conditions ++ [c] }

/-- Source `where_raw` (lines 219-231). -/
def QueryBuilder.where_raw (b : QueryBuilder) (r : String) : QueryBuilder :=
  { b with _where_conditions := b._where_conditions ++ [QueryCondition.rawLeaf r] }

/-- Source `join` (lines 235-254). -/
def QueryBuilder.join (b : QueryBuilder) (t c : String) (jt : JoinType) :
    QueryBuilder :=
  { b with _joins := b._joins ++ [jt.to_sql ++ " " ++ t ++ " ON " ++ c] }

/-- Source `group_by` (lines 266-280); single-string overload = `[col]`. -/
def QueryBuilder.group_by (b : QueryBuilder) (cols : List String) : QueryBuilder :=
  { b with _group_by_columns := b._group_by_columns ++ cols }

/-- Source `having` (lines 282-293). -/
def QueryBuilder.having (b : QueryBuilder) (c : String) : QueryBuilder :=
  { b with _having_clause := some c }

/-- Source `order_by` (lines 297-312). -/
def QueryBuilder.order_by (b : QueryBuilder) (c : String) (o : SortOrder) :
    QueryBuilder :=
  { b with _order_by_clauses := b._order_by_clauses ++ [c ++ " " ++ o.to_sql] }

/-- Source `limit` (lines 316-327). -/
def QueryBuilder.limit (b : QueryBuilder) (n : Int) : QueryBuilder :=
  { b with _limit_count := some n }

/-- Source `offset` (lines 329-340). -/
def QueryBuilder.offset (b : QueryBuilder) (n : Int) : QueryBuilder :=
  { b with _offset_count := some n }

/-- Source `insert_into` (lines 344-356). -/
def QueryBuilder.insert_into (b : QueryBuilder) (t : String) : QueryBuilder :=
  { b with _query_type := some .INSERT, _target_table := some t }

/-- Source `values` (lines 358-374); single-dict overload = `[row]`. -/
def QueryBuilder.values (b : QueryBuilder) (rows : List Row) : QueryBuilder :=
  { b with _insert_rows := b._insert_rows ++ rows }

/-- Source `update` (lines 378-390). -/
def QueryBuilder.update (b : QueryBuilder) (t : String) : QueryBuilder :=
  { b with _query_type := some .UPDATE, _target_table := some t }

/-- Source `set` (lines 392-409), single field-value form (`self._set_data[field] =
value`); the dict overload is a fold of this one. -/
def QueryBuilder.set (b : QueryBuilder) (f : String) (v : DBValue) : QueryBuilder :=
  { b with _set_data := dictInsert b._set_data f v }

/-- Source `delete_from` (lines 413-425). -/
def QueryBuilder.delete_from (b : QueryBuilder) (t : String) : QueryBuilder :=
  { b with _query_type := some .DELETE, _target_table := some t }

/-- Source `_build_select` (lines 447-488): parts appended in source order, space
joined. Guards are the source's Python truthiness tests (`if
self._from_table:` excludes both `None` and `""`; `LIMIT`/`OFFSET` use `is
not None`). -/
def QueryBuilder.build_select (b : QueryBuilder) : String :=
  let columns :=
    if b._select_columns = [] then "*" else String.intercalate ", " b._select_columns
  let p1 := ["SELECT " ++ columns]
  let p2 := p1 ++ (match b._from_table with
    | some t => if t = "" then [] else ["FROM " ++ t]
    | none => [])
  let p3 := p2 ++ b._joins
  let p4 := p3 ++ (if b._where_conditions.isEmpty then [] else
    ["WHERE " ++ String.intercalate " AND "
      (b._where_conditions.map QueryCondition.to_sql)])
  let p5 := p4 ++ (if b._group_by_columns = [] then [] else
    ["GROUP BY " ++ String.intercalate ", " b._group_by_columns])
  let p6 := p5 ++ (match b._having_clause with
    | some h => if h = "" then [] else ["HAVING " ++ h]
    | none => [])
  let p7 := p6 ++ (if b._order_by_clauses = [] then [] else
    ["ORDER BY " ++ String.intercalate ", " b._order_by_clauses])
  let p8 := p7 ++ (match b._limit_count with
    | some n => ["LIMIT " ++ toString n]
    | none => [])
  let p9 := p8 ++ (match b._offset_count with
    | some n => ["OFFSET " ++ toString n]
    | none => [])
  String.intercalate " " p9

/-- Source `_build_insert` (lines 490-507): error when no rows; columns from the
first row's keys; `row.get(col)` missing keys format as `NULL`. -/
def QueryBuilder.build_insert (b : QueryBuilder) : Except String String :=
  match b._insert_rows with
  | [] => .error "No values specified for INSERT"
  | first_row :: _ =>
    let columns := first_row.map Prod.fst
    let columns_str := String.intercalate ", " columns
    let values_lists := b._insert_rows.map (fun row =>
      "(" ++ String.intercalate ", "
        (columns.map (fun col => format_value ((rowGet row col).getD .null)))
        ++ ")")
    let values_str := String.intercalate ", " values_lists
    .ok ("INSERT INTO " ++ pyStr b._target_table ++ " (" ++ columns_str ++
         ") VALUES " ++ values_str)

/-- Source `_build_update` (lines 509-528). -/
def QueryBuilder.build_update (b : QueryBuilder) : Except String String :=
  if b._set_data = ([] : Row) then .error "No SET data specified for UPDATE"
  else
    let set_clauses := b._set_data.map (fun p => p.1 ++ " = " ++ format_value p.2)
    let set_str := String.intercalate ", " set_clauses
    let parts := ["UPDATE " ++ pyStr b._target_table, "SET " ++ set_str]
    let parts := parts ++ (if b._where_conditions.isEmpty then [] else
      ["WHERE " ++ String.intercalate " AND "
        (b._where_conditions.map QueryCondition.to_sql)])
    .ok (String.intercalate " " parts)

/-- Source `_build_delete` (lines 530-539). -/
def QueryBuilder.build_delete (b : QueryBuilder) : String :=
  let parts := ["DELETE FROM " ++ pyStr b._target_table]
  let parts := parts ++ (if b._where_conditions.isEmpty then [] else
    ["WHERE " ++ String.intercalate " AND "
      (b._where_conditions.map QueryCondition.to_sql)])
  String.intercalate " " parts

/-- Source `build` (lines 429-445): dispatch on the statement-kind tag; `raise
ValueError("No query type set")` when unset. -/
def QueryBuilder.build (b : QueryBuilder) : Except String String :=
  match b._query_type with
  | some .SELECT => .ok b.build_select
  | some .INSERT => b.build_insert
  | some .UPDATE => b.build_update
  | some .DELETE => .ok b.build_delete
  | none => .error "No query type set"

/-- Source `reset` (lines 556-570): every accumulator back to its initial value. -/
def QueryBuilder.reset (_b : QueryBuilder) : QueryBuilder :=
  { _query_type := none, _select_columns := [], _from_table := none,
    _where_conditions := [], _joins := [], _group_by_columns := [],
    _having_clause := none, _order_by_clauses := [], _limit_count := none,
    _offset_count := none, _target_table := none, _set_data := [],
    _insert_rows := [] }

/-! ### Fluent-call sequences

One step per public mutating method of `QueryBuilder`, so that claims over
"every sequence of fluent calls" quantify over `List BuilderOp`. -/

inductive BuilderOp where
  | opSelect (cols : List String)
  | opFromTable (t : String)
  | opWhere (f o : String) (v : DBValue)
  | opWhereCondition (c : QueryCondition)
  | opWhereRaw (r : String)
  | opJoin (t c : String) (jt : JoinType)
  | opGroupBy (cols : List String)
  | opHaving (c : String)
  | opOrderBy (c : String) (o : SortOrder)
  | opLimit (n : Int)
  | opOffset (n : Int)
  | opInsertInto (t : String)
  | opValues (rows : List Row)
  | opUpdate (t : String)
  | opSet (f : String) (v : DBValue)
  | opDeleteFrom (t : String)

/-- Apply one fluent call to the builder. -/
def applyOp (b : QueryBuilder) : BuilderOp → QueryBuilder
  | .opSelect cols => b.select cols
  | .opFromTable t => b.from_table t
  | .opWhere f o v => b.where_field f o v
  | .opWhereCondition c => b.where_condition c
  | .opWhereRaw r => b.where_raw r
  | .opJoin t c jt => b.join t c jt
  | .opGroupBy cols => b.group_by cols
  | .opHaving c => b.having c
  | .opOrderBy c o => b.order_by c o
  | .opLimit n => b.limit n
  | .opOffset n => b.offset n
  | .opInsertInto t => b.insert_into t
  | .opValues rows => b.values rows
  | .opUpdate t => b.update t
  | .opSet f v => b.set f v
  | .opDeleteFrom t => b.delete_from t

/-- Apply a whole fluent-call sequence, left to right. -/
def applyOps (b : QueryBuilder) (ops : List BuilderOp) : QueryBuilder :=
  ops.foldl applyOp b

/-- The statement kind an op sets, if it is one of the four entry methods. -/
def entryKind : BuilderOp → Option QueryType
  | .opSelect _ => some .SELECT
  | .opInsertInto _ => some .INSERT
  | .opUpdate _ => some .UPDATE
  | .opDeleteFrom _ => some .DELETE
  | _ => none

/-- Kind of the first entry method in the sequence, if any. -/
def firstEntryKind : List BuilderOp → Option QueryType
  | [] => none
  | op :: ops =>
    match entryKind op with
    | some k => some k
    | none => firstEntryKind ops

/-- Kind of the last entry method in the sequence, if any. -/
def lastEntryKind : List BuilderOp → Option QueryType
  | [] => none
  | op :: ops =>
    match lastEntryKind ops with
    | some k => some k
    | none => entryKind op

/-- The terminal build path belonging to a statement kind: the dispatch arms
of `build` (lines 436-443). -/
def buildOfKind (k : QueryType) (b : QueryBuilder) : Except String String :=
  match k with
  | .SELECT => .ok b.build_select
  | .INSERT => b.build_insert
  | .UPDATE => b.build_update
  | .DELETE => .ok b.build_delete

/-! ### Connection pool

State-machine embedding of `connection_pool.py`. Real time (timeouts) and
thread interleavings are outside a shallow embedding: each `acquire` step is
the atomic effect of one call, with the fallible factory call represented by
an `Option H` outcome supplied to the step (`none` = the factory raised, the
`except` branch of `_create_new_connection`). The blocking
`self._available.get(timeout=...)` succeeds exactly when the available queue
is non-empty in this sequential model, and the `Queue` is FIFO: `put`
appends, `get` takes the front. -/

/-- Source `ConnectionPoolConfig` (connection_pool.py lines 14-27); the timeout /
health-check / connection-string fields do not influence any state
transition and are omitted. -/
structure PoolConfig where
  min_connections : Nat
  max_connections : Nat

/-- Live pool state: `self._available`, `self._in_use`,
`self._total_connections` and the two cumulative counters of
`self._stats`. The `active_connections` / `available_connections` /
`total_connections` snapshot fields of `_stats` are recomputed from the live
state by `get_stats` before every read, so they carry no extra state. -/
structure PoolState (H : Type) where
  available : List H
  in_use : List H
  total_connections : Nat
  successful_acquisitions : Nat
  failed_acquisitions : Nat

/-- Pool state right after `__init__` ran zero warm-up iterations. -/
def PoolState.init {H : Type} : PoolState H :=
  { available := [], in_use := [], total_connections := 0,
    successful_acquisitions := 0, failed_acquisitions := 0 }

/-- One warm-up iteration of `__init__` (lines 74-77): `conn =
self._create_new_connection()`, and `if conn: self._available.put(conn)`;
`_create_new_connection` increments the total only on factory success. -/
def warmStep {H : Type} (s : PoolState H) (r : Option H) : PoolState H :=
  match r with
  | some conn =>
    { s with total_connections := s.total_connections + 1,
             available := s.available ++ [conn] }
  | none => s

/-- Source `__init__` warm-up: one factory outcome per iteration
(`min_connections` of them for a real run). -/
def warmUp {H : Type} (results : List (Option H)) : PoolState H :=
  results.foldl warmStep PoolState.init

/-- Source `acquire` (lines 90-135): result and successor state. `factory` is the
outcome of the `_create_new_connection` call the step would make (`none` =
the factory raised and the except-branch returned `None`). -/
def acquire {H : Type} (cfg : PoolConfig) (s : PoolState H) (factory : Option H) :
    Option H × PoolState H :=
  match s.available with
  | conn :: rest =>
    (some conn,
     { s with available := rest, in_use := s.in_use ++ [conn],
              successful_acquisitions := s.successful_acquisitions + 1 })
  | [] =>
    if s.total_connections < cfg.max_connections then
      match factory with
      | some conn =>
        (some conn,
         { s with total_connections := s.total_connections + 1,
                  in_use := s.in_use ++ [conn],
                  successful_acquisitions := s.successful_acquisitions + 1 })
      | none =>
        (none, { s with failed_acquisitions := s.failed_acquisitions + 1 })
    else
      (none, { s with failed_acquisitions := s.failed_acquisitions + 1 })

/-- Source `release` (lines 137-147): move the handle back to the available queue if
it is tracked as in use (`list.remove` drops the first occurrence), else
no-op. -/
def release {H : Type} [DecidableEq H] (s : PoolState H) (conn : H) : PoolState H :=
  if conn ∈ s.in_use then
    { s with in_use := s.in_use.erase conn, available := s.available ++ [conn] }
  else s

/-- One pool interaction: an `acquire` (with its factory outcome) or a
`release`. -/
inductive PoolOp (H : Type) where
  | acquireOp (factory : Option H)
  | releaseOp (conn : H)

def applyPoolOp {H : Type} [DecidableEq H] (cfg : PoolConfig)
    (s : PoolState H) : PoolOp H → PoolState H
  | .acquireOp f => (acquire cfg s f).2
  | .releaseOp c => release s c

/-- Run a sequence of acquire/release interactions. -/
def runPool {H : Type} [DecidableEq H] (cfg : PoolConfig) (s : PoolState H)
    (ops : List (PoolOp H)) : PoolState H :=
  ops.foldl (applyPoolOp cfg) s

/-- The spec's pool invariant: `active + available ≤ total ≤ maximum`. -/
def poolInv {H : Type} (cfg : PoolConfig) (s : PoolState H) : Prop :=
  s.in_use.length + s.available.length ≤ s.total_connections ∧
  s.total_connections ≤ cfg.max_connections

instance {H : Type} (cfg : PoolConfig) (s : PoolState H) :
    Decidable (poolInv cfg s) := by unfold poolInv; infer_instance

/-! ### Spec-side definitions

Written from the wording of `spec.md` (not from the code), to be compared
with the source-translated definitions above by refinement theorems. -/

/-- Spec §4.2: "text → single-quoted with every embedded single quote
doubled": each quote character contributes two copies of itself, every other
character contributes itself. -/
def specEscape (s : String) : String :=
  String.mk (s.data.foldr
    (fun c acc => if c = quoteChar then c :: c :: acc else c :: acc) [])

/-- Spec §4.2 value formatting: "absent/null → the literal NULL; boolean →
TRUE/FALSE; text → single-quoted with every embedded single quote doubled;
every other scalar → its canonical decimal text form". Partial: for a float
the spec prescribes the canonical decimal text of the numeric value, which
is not recoverable from the `str()` image the embedding carries — and which
the code in fact violates (see the claim C5 counterexample) — so the float
case is `none`. -/
def specFormatValue : DBValue → Option String
  | .null => some "NULL"
  | .boolV b => some (if b then "TRUE" else "FALSE")
  | .strV s => some ("'" ++ specEscape s ++ "'")
  | .intV i => some (toString i)
  | .floatV _ => none

/-- Spec §4.2's "canonical decimal text form", as a recognizer: an optional
leading minus sign, then digits with at most one decimal point — no
exponent marker, no letters. -/
def specDecimalText (s : String) : Bool :=
  let body :=
    match s.data with
    | '-' :: rest => rest
    | cs => cs
  !body.isEmpty && body.all (fun c => c.isDigit || c = '.') &&
    body.count '.' ≤ 1

/-- Spec §4.3 SELECT: the fragments in their fixed order, each `none` when
the spec says it is omitted. "No table set" / "HAVING unset" are read as
Python truthiness (absent or empty), matching the source the spec was
written from; LIMIT/OFFSET are omitted exactly when unset. -/
def specSelectFragments (b : QueryBuilder) : List (Option String) :=
  [some ("SELECT " ++ (if b._select_columns = [] then "*"
      else String.intercalate ", " b._select_columns)),
   (match b._from_table with
    | some t => if t = "" then none else some ("FROM " ++ t)
    | none => none)]
  ++ b._joins.map some
  ++ [(if b._where_conditions.isEmpty then none
       else some ("WHERE " ++ String.intercalate " AND "
         (b._where_conditions.map QueryCondition.to_sql))),
      (if b._group_by_columns = [] then none
       else some ("GROUP BY " ++ String.intercalate ", " b._group_by_columns)),
      (match b._having_clause with
       | some h => if h = "" then none else some ("HAVING " ++ h)
       | none => none),
      (if b._order_by_clauses = [] then none
       else some ("ORDER BY " ++ String.intercalate ", " b._order_by_clauses)),
      (b._limit_count.map (fun n => "LIMIT " ++ toString n)),
      (b._offset_count.map (fun n => "OFFSET " ++ toString n))]

/-- Spec §4.3: "fragments present are joined with single spaces; absent
fragments contribute nothing". -/
def specSelectRender (b : QueryBuilder) : String :=
  String.intercalate " " ((specSelectFragments b).filterMap id)

/-- Spec §4.3 INSERT (for a non-empty row list): column list from the first
row's keys; one parenthesized tuple per row in row order; a row missing a
key present in the first row contributes `NULL` in that position. -/
def specInsertRender (t : String) (first : Row) (rest : List Row) : String :=
  let cols := first.map Prod.fst
  let tuple := fun (row : Row) =>
    "(" ++ String.intercalate ", " (cols.map (fun c =>
      match rowGet row c with
      | some v => format_value v
      | none => "NULL")) ++ ")"
  "INSERT INTO " ++ t ++ " (" ++ String.intercalate ", " cols ++ ") VALUES " ++
    String.intercalate ", " ((first :: rest).map tuple)

/-! ### Helper lemmas -/

theorem toSqlList_eq_map (l : List QueryCondition) :
    toSqlList l = l.map QueryCondition.to_sql := by
  induction l with
  | nil => rfl
  | cons c cs ih => simp [toSqlList, ih]

theorem intercalate_pair (s a b : String) :
    String.intercalate s [a, b] = a ++ s ++ b := rfl

theorem pyReplaceQuote_eq_foldr (cs : List Char) :
    pyReplaceQuote cs =
      cs.foldr (fun c acc => if c = quoteChar then c :: c :: acc else c :: acc) [] := by
  induction cs with
  | nil => rfl
  | cons c cs ih =>
    simp only [pyReplaceQuote, List.foldr_cons, ih]
    split <;> rename_i h <;> simp [h]

theorem format_value_eq_spec (v : DBValue) (h : v.isFloat = false) :
    specFormatValue v = some (format_value v) := by
  cases v with
  | floatV s => simp [DBValue.isFloat] at h
  | strV s => simp [format_value, specFormatValue, specEscape, pyReplaceQuote_eq_foldr]
  | _ => rfl

theorem leaf_to_sql (f o : String) (v : DBValue) :
    (QueryCondition.leaf f o v).to_sql = f ++ " " ++ o ++ " " ++ format_value v := by
  rfl

/-! ### Claim theorems -/

/-- Claim C5 counterexample: Python renders the float `1e16` as
`str(1e16) == "1e+16"` (scientific notation), and the builder inlines that
text verbatim, so a float SET value is emitted as `a = 1e+16` — not a
canonical decimal text form, refuting "the canonical decimal text form for
every other scalar" at this concrete input. -/
theorem float_formatting_cex :
    format_value (DBValue.floatV "1e+16") = "1e+16" ∧
    specDecimalText "1e+16" = false ∧
    QueryBuilder.build (((QueryBuilder.empty.update "t").set "a"
        (.floatV "1e+16")).where_field "id" "=" (.intV 1)) =
      .ok "UPDATE t SET a = 1e+16 WHERE id = 1" :=
  ⟨rfl, by decide, rfl⟩

/-- Claim C5 (amended): a non-float scalar in a condition, SET assignment or
INSERT row is emitted per the spec rule — `NULL` for null, `TRUE`/`FALSE`
for a boolean, single-quoted with embedded quotes doubled for a string,
decimal text for an integer — while a float scalar is emitted as the text
Python's `str()` yields for it, unchanged (which may be scientific notation
or `inf`/`nan` rather than decimal text); in particular `"x'y"` becomes
`'x''y'` in the INSERT example and a `None` SET value yields `a = NULL`. -/
theorem value_formatting_spec :
    (∀ v, v.isFloat = false → specFormatValue v = some (format_value v)) ∧
    (∀ s, format_value (DBValue.floatV s) = s) ∧
    (∀ f o v, (QueryCondition.leaf f o v).to_sql =
      f ++ " " ++ o ++ " " ++ format_value v) ∧
    QueryBuilder.build ((QueryBuilder.empty.insert_into "t").values
        [[("a", .intV 1), ("b", .strV "x'y")]]) =
      .ok "INSERT INTO t (a, b) VALUES (1, 'x''y')" ∧
    QueryBuilder.build (((QueryBuilder.empty.update "t").set "a" .null).where_field
        "id" "=" (.intV 1)) =
      .ok "UPDATE t SET a = NULL WHERE id = 1" :=
  ⟨format_value_eq_spec, fun _ => rfl, leaf_to_sql, rfl, rfl⟩

/-- Witness for the amended C5 at the concrete string scalar `"x'y"`. -/
theorem value_formatting_spec_witness :
    (DBValue.strV "x'y").isFloat = false ∧
    specFormatValue (DBValue.strV "x'y") =
      some (format_value (DBValue.strV "x'y")) :=
  ⟨rfl, value_formatting_spec.1 (DBValue.strV "x'y") rfl⟩

/-- Claim C8: `__and__` (resp. `__or__`) produces a fresh internal node holding the
two operands, and its serialization is the two serializations joined by the
space-padded operator inside parentheses. The operands appear unchanged as
the node's children (the embedding is pure, so no mutation is possible). -/
theorem condition_composition_spec :
    ∀ c1 c2 : QueryCondition,
      ((c1.andC c2).sub_conditions = [c1, c2] ∧
       (c1.andC c2).to_sql = "(" ++ c1.to_sql ++ " AND " ++ c2.to_sql ++ ")") ∧
      ((c1.orC c2).sub_conditions = [c1, c2] ∧
       (c1.orC c2).to_sql = "(" ++ c1.to_sql ++ " OR " ++ c2.to_sql ++ ")") := by
  intro c1 c2
  refine ⟨⟨rfl, ?_⟩, ⟨rfl, ?_⟩⟩ <;>
    simp [QueryCondition.andC, QueryCondition.orC, QueryCondition.to_sql,
      toSqlList, pyStr, intercalate_pair, String.append_assoc]

/-- Claim C7: `build()` fails exactly when no statement kind is set, or the kind is
INSERT with no rows, or the kind is UPDATE with no SET assignments; every
other builder state yields a SQL string. -/
theorem build_error_iff :
    ∀ b : QueryBuilder,
      (∃ e, QueryBuilder.build b = .error e) ↔
        (b._query_type = none ∨
         (b._query_type = some .INSERT ∧ b._insert_rows = []) ∨
         (b._query_type = some .UPDATE ∧ b._set_data = ([] : Row))) := by
  intro b
  cases hq : b._query_type with
  | none => simp [QueryBuilder.build, hq]
  | some k =>
    cases k with
    | SELECT => simp [QueryBuilder.build, hq]
    | DELETE => simp [QueryBuilder.build, hq]
    | INSERT =>
      cases hr : b._insert_rows with
      | nil => simp [QueryBuilder.build, QueryBuilder.build_insert, hq, hr]
      | cons r rs => simp [QueryBuilder.build, QueryBuilder.build_insert, hq, hr]
    | UPDATE =>
      by_cases hs : b._set_data = ([] : Row) <;>
        simp [QueryBuilder.build, QueryBuilder.build_update, hq, hs]

/-- Claim C9: `reset()` returns the builder to the constructed-empty state, so any
fluent-call sequence after a reset builds the same string as the same
sequence on a fresh builder; `build` is a pure function of the state, so
repeated calls agree by construction. -/
theorem reset_equiv_fresh :
    ∀ (b : QueryBuilder) (ops : List BuilderOp),
      QueryBuilder.reset b = QueryBuilder.empty ∧
      QueryBuilder.build (applyOps (QueryBuilder.reset b) ops) =
        QueryBuilder.build (applyOps QueryBuilder.empty ops) := by
  intro b ops
  exact ⟨rfl, rfl⟩

theorem applyOp_query_type (b : QueryBuilder) (op : BuilderOp) :
    (applyOp b op)._query_type =
      match entryKind op with
      | some k => some k
      | none => b._query_type := by
  cases op <;> rfl

theorem applyOps_query_type (ops : List BuilderOp) (b : QueryBuilder) :
    (applyOps b ops)._query_type =
      match lastEntryKind ops with
      | some k => some k
      | none => b._query_type := by
  induction ops generalizing b with
  | nil => rfl
  | cons op ops ih =>
    show (applyOps (applyOp b op) ops)._query_type = _
    rw [ih, applyOp_query_type, lastEntryKind]
    cases lastEntryKind ops <;> cases entryKind op <;> rfl

/-- Claim C1 counterexample: in the sequence `select(["a"]).from_table("t")
.update("u").set("x", 1)` the first entry method is `select`, yet `build()`
serializes the UPDATE shape (each entry method overwrites `_query_type`),
and its output differs from the SELECT-path serialization of the same
state. -/
theorem build_shape_first_entry_cex :
    firstEntryKind [BuilderOp.opSelect ["a"], .opFromTable "t", .opUpdate "u",
        .opSet "x" (.intV 1)] = some .SELECT ∧
    QueryBuilder.build (applyOps QueryBuilder.empty
        [BuilderOp.opSelect ["a"], .opFromTable "t", .opUpdate "u",
         .opSet "x" (.intV 1)]) = .ok "UPDATE u SET x = 1" ∧
    (applyOps QueryBuilder.empty
        [BuilderOp.opSelect ["a"], .opFromTable "t", .opUpdate "u",
         .opSet "x" (.intV 1)]).build_select ≠ "UPDATE u SET x = 1" := by
  refine ⟨rfl, rfl, ?_⟩
  decide

/-- Claim C1 (amended): `build()` serializes the statement shape of the entry
method that was called *last* in the fluent sequence — each entry method
overwrites the statement-kind tag, so the latest call decides which of the
four build paths runs. -/
theorem build_shape_last_entry :
    ∀ (ops : List BuilderOp) (k : QueryType),
      lastEntryKind ops = some k →
      QueryBuilder.build (applyOps QueryBuilder.empty ops) =
        buildOfKind k (applyOps QueryBuilder.empty ops) := by
  intro ops k hk
  have hq := applyOps_query_type ops QueryBuilder.empty
  rw [hk] at hq
  cases k <;>
    simp only [QueryBuilder.build, buildOfKind, hq]

/-- Witness for C1 at a concrete sequence holding two distinct entry
methods: `select` then `update`; the last one (UPDATE) decides the shape. -/
theorem build_shape_last_entry_witness :
    lastEntryKind [BuilderOp.opSelect ["a"], .opUpdate "t",
        .opSet "x" (.intV 1)] = some .UPDATE ∧
    QueryBuilder.build (applyOps QueryBuilder.empty
        [BuilderOp.opSelect ["a"], .opUpdate "t", .opSet "x" (.intV 1)]) =
      buildOfKind .UPDATE (applyOps QueryBuilder.empty
        [BuilderOp.opSelect ["a"], .opUpdate "t", .opSet "x" (.intV 1)]) :=
  ⟨rfl, build_shape_last_entry _ _ rfl⟩

theorem format_getD (o : Option DBValue) :
    format_value (o.getD DBValue.null) =
      match o with
      | some v => format_value v
      | none => "NULL" := by
  cases o <;> rfl

/-- Claim C6: with a non-empty row list, the INSERT build takes the column list
from the first row's keys in order, emits one parenthesized value tuple per
row in row order, and a row missing a first-row key contributes `NULL` at
that position (`specInsertRender` is exactly this spec wording). -/
theorem insert_build_spec :
    ∀ (t : String) (first : Row) (rest : List Row),
      QueryBuilder.build ((QueryBuilder.empty.insert_into t).values (first :: rest)) =
        .ok (specInsertRender t first rest) := by
  intro t first rest
  have hfun : ∀ row : Row,
      (first.map Prod.fst).map
        (fun col => format_value ((rowGet row col).getD DBValue.null)) =
      (first.map Prod.fst).map (fun c =>
        match rowGet row c with
        | some v => format_value v
        | none => "NULL") := by
    intro row
    exact List.map_congr_left (fun c _ => format_getD (rowGet row c))
  simp only [QueryBuilder.build, QueryBuilder.build_insert, QueryBuilder.insert_into,
    QueryBuilder.values, QueryBuilder.empty, List.nil_append, pyStr, specInsertRender,
    hfun]

theorem rowGet_append_ne (row : Row) (k c : String) (v : DBValue) (h : c ≠ k) :
    rowGet (row ++ [(k, v)]) c = rowGet row c := by
  unfold rowGet
  rw [List.find?_append]
  have hkc : (k == c) = false := beq_false_of_ne (Ne.symm h)
  have : List.find? (fun p => p.1 == c) [(k, v)] = none := by
    simp [List.find?, hkc]
  rw [this]
  cases List.find? (fun p => p.1 == c) row <;> rfl

/-- Claim C10: a key occurring in a later row but absent from the first row is
silently dropped — appending such a binding to any non-first row leaves the
`build()` output unchanged, so neither the key nor its value influences the
emitted columns or any value tuple. -/
theorem insert_drops_nonfirst_keys :
    ∀ (t : String) (first : Row) (pre : List Row) (row : Row) (post : List Row)
      (k : String) (v : DBValue),
      k ∉ first.map Prod.fst →
      QueryBuilder.build ((QueryBuilder.empty.insert_into t).values
          (first :: (pre ++ (row ++ [(k, v)]) :: post))) =
        QueryBuilder.build ((QueryBuilder.empty.insert_into t).values
          (first :: (pre ++ row :: post))) := by
  intro t first pre row post k v hk
  have htup :
      (first.map Prod.fst).map
        (fun col => format_value ((rowGet (row ++ [(k, v)]) col).getD DBValue.null)) =
      (first.map Prod.fst).map
        (fun col => format_value ((rowGet row col).getD DBValue.null)) := by
    refine List.map_congr_left (fun c hc => ?_)
    have hck : c ≠ k := fun h => hk (h ▸ hc)
    rw [rowGet_append_ne row k c v hck]
  simp only [QueryBuilder.build, QueryBuilder.build_insert, QueryBuilder.insert_into,
    QueryBuilder.values, QueryBuilder.empty, List.nil_append, List.map_append,
    List.map_cons, htup]

/-- Witness for C10: first row `{a: 1}`, second row `{a: 2}` with the extra
binding `b: 9` appended; the two INSERT statements coincide. -/
theorem insert_drops_nonfirst_keys_witness :
    ("b" ∉ ([("a", DBValue.intV 1)] : Row).map Prod.fst) ∧
    QueryBuilder.build ((QueryBuilder.empty.insert_into "t").values
        ([("a", DBValue.intV 1)] ::
          ([] ++ ([("a", DBValue.intV 2)] ++ [("b", DBValue.intV 9)]) :: []))) =
      QueryBuilder.build ((QueryBuilder.empty.insert_into "t").values
        ([("a", DBValue.intV 1)] :: ([] ++ [("a", DBValue.intV 2)] :: []))) :=
  ⟨by decide, insert_drops_nonfirst_keys "t" [("a", DBValue.intV 1)] []
    [("a", DBValue.intV 2)] [] "b" (DBValue.intV 9) (by decide)⟩

/-! ### Pool lemmas -/

theorem warmFold_sum {H : Type} (results : List (Option H)) (s : PoolState H)
    (h : s.in_use.length + s.available.length ≤ s.total_connections) :
    (results.foldl warmStep s).in_use.length +
      (results.foldl warmStep s).available.length ≤
      (results.foldl warmStep s).total_connections := by
  induction results generalizing s with
  | nil => exact h
  | cons r rs ih =>
    refine ih (warmStep s r) ?_
    cases r with
    | none => exact h
    | some conn => simp [warmStep, List.length_append]; omega

theorem warmFold_total {H : Type} (results : List (Option H)) (s : PoolState H) :
    (results.foldl warmStep s).total_connections ≤
      s.total_connections + results.length := by
  induction results generalizing s with
  | nil => simp
  | cons r rs ih =>
    have := ih (warmStep s r)
    cases r with
    | none => simp [warmStep] at this ⊢; omega
    | some conn => simp [warmStep] at this ⊢; omega

theorem poolInv_warmUp {H : Type} (cfg : PoolConfig) (results : List (Option H))
    (hlen : results.length = cfg.min_connections)
    (hminmax : cfg.min_connections ≤ cfg.max_connections) :
    poolInv cfg (warmUp results) := by
  constructor
  · exact warmFold_sum results PoolState.init (by simp [PoolState.init])
  · show (results.foldl warmStep PoolState.init).total_connections ≤ _
    have := warmFold_total results PoolState.init
    simp only [PoolState.init] at this ⊢
    omega

theorem poolInv_acquire {H : Type} (cfg : PoolConfig) (s : PoolState H)
    (f : Option H) (h : poolInv cfg s) : poolInv cfg (acquire cfg s f).2 := by
  obtain ⟨h1, h2⟩ := h
  unfold acquire
  cases hav : s.available with
  | cons conn rest =>
    rw [hav] at h1
    simp only [List.length_cons] at h1
    exact ⟨by simp [poolInv, List.length_append]; omega, h2⟩
  | nil =>
    rw [hav] at h1
    simp only [List.length_nil] at h1
    by_cases hlt : s.total_connections < cfg.max_connections
    · simp only [hlt, if_true]
      cases f with
      | some conn =>
        refine ⟨?_, ?_⟩
        · show (s.in_use ++ [conn]).length + ([] : List H).length ≤
            s.total_connections + 1
          simp only [List.length_append, List.length_cons, List.length_nil]
          omega
        · exact hlt
      | none => exact ⟨by simpa [hav] using h1, h2⟩
    · simp only [hlt, if_false]
      exact ⟨by simpa [hav] using h1, h2⟩

theorem poolInv_release {H : Type} [DecidableEq H] (s : PoolState H) (cfg : PoolConfig)
    (conn : H) (h : poolInv cfg s) : poolInv cfg (release s conn) := by
  obtain ⟨h1, h2⟩ := h
  unfold release
  by_cases hmem : conn ∈ s.in_use
  · have hpos : 0 < s.in_use.length := List.length_pos.mpr
      (fun hnil => by simp [hnil] at hmem)
    have herase : (s.in_use.erase conn).length = s.in_use.length - 1 :=
      List.length_erase_of_mem hmem
    simp only [hmem, if_true]
    exact ⟨by simp [poolInv, herase, List.length_append]; omega, h2⟩
  · simp only [hmem, if_false]
    exact ⟨h1, h2⟩

theorem poolInv_applyPoolOp {H : Type} [DecidableEq H] (cfg : PoolConfig)
    (s : PoolState H) (op : PoolOp H) (h : poolInv cfg s) :
    poolInv cfg (applyPoolOp cfg s op) := by
  cases op with
  | acquireOp f => exact poolInv_acquire cfg s f h
  | releaseOp c => exact poolInv_release s cfg c h

theorem total_le_applyPoolOp {H : Type} [DecidableEq H] (cfg : PoolConfig)
    (s : PoolState H) (op : PoolOp H) :
    s.total_connections ≤ (applyPoolOp cfg s op).total_connections := by
  cases op with
  | acquireOp f =>
    unfold applyPoolOp acquire
    cases s.available with
    | cons conn rest => simp
    | nil =>
      by_cases hlt : s.total_connections < cfg.max_connections
      · simp only [hlt, if_true]
        cases f <;> simp
      · simp [hlt]
  | releaseOp c =>
    unfold applyPoolOp release
    by_cases hmem : c ∈ s.in_use <;> simp [hmem]

theorem poolInv_runPool {H : Type} [DecidableEq H] (cfg : PoolConfig)
    (s : PoolState H) (ops : List (PoolOp H)) (h : poolInv cfg s) :
    poolInv cfg (runPool cfg s ops) := by
  induction ops generalizing s with
  | nil => exact h
  | cons op ops ih => exact ih _ (poolInv_applyPoolOp cfg s op h)

theorem total_le_runPool {H : Type} [DecidableEq H] (cfg : PoolConfig)
    (s : PoolState H) (ops : List (PoolOp H)) :
    s.total_connections ≤ (runPool cfg s ops).total_connections := by
  induction ops generalizing s with
  | nil => exact le_refl _
  | cons op ops ih =>
    exact le_trans (total_le_applyPoolOp cfg s op) (ih (applyPoolOp cfg s op))

theorem runPool_append {H : Type} [DecidableEq H] (cfg : PoolConfig)
    (s : PoolState H) (l1 l2 : List (PoolOp H)) :
    runPool cfg s (l1 ++ l2) = runPool cfg (runPool cfg s l1) l2 :=
  List.foldl_append ..

/-- Claim C2: from a valid config (`minimum ≤ maximum`), after any warm-up factory
outcomes and any acquire/release sequence, every observation point (prefix
`take m`) satisfies `active + available ≤ total ≤ maximum`, and the total
count never decreases between observation points. -/
theorem pool_invariant_monotone :
    ∀ (H : Type) (_inst : DecidableEq H) (cfg : PoolConfig)
      (results : List (Option H)) (ops : List (PoolOp H)) (m n : Nat),
      results.length = cfg.min_connections →
      cfg.min_connections ≤ cfg.max_connections →
      m ≤ n →
      poolInv cfg (runPool cfg (warmUp results) (ops.take m)) ∧
      (runPool cfg (warmUp results) (ops.take m)).total_connections ≤
        (runPool cfg (warmUp results) (ops.take n)).total_connections := by
  intro H inst cfg results ops m n hlen hmm hmn
  have hinv := poolInv_runPool cfg (warmUp results) (ops.take m)
    (poolInv_warmUp cfg results hlen hmm)
  refine ⟨hinv, ?_⟩
  have hsplit : ops.take n = ops.take m ++ (ops.take n).drop m := by
    conv_lhs => rw [← List.take_append_drop m (ops.take n)]
    rw [List.take_take, Nat.min_eq_left hmn]
  rw [hsplit, runPool_append]
  exact total_le_runPool cfg _ _

/-- Witness for C2: two successful warm-up connections, then an acquire whose
factory call fails, on a pool with `min = 2`, `max = 20`. -/
theorem pool_invariant_monotone_witness :
    ([some 0, some 1] : List (Option Nat)).length =
        (PoolConfig.mk 2 20).min_connections ∧
    (PoolConfig.mk 2 20).min_connections ≤ (PoolConfig.mk 2 20).max_connections ∧
    (0 : Nat) ≤ 1 ∧
    (poolInv (PoolConfig.mk 2 20)
        (runPool (PoolConfig.mk 2 20) (warmUp [some 0, some 1])
          (([PoolOp.acquireOp none] : List (PoolOp Nat)).take 0)) ∧
      (runPool (PoolConfig.mk 2 20) (warmUp [some 0, some 1])
          (([PoolOp.acquireOp none] : List (PoolOp Nat)).take 0)).total_connections ≤
        (runPool (PoolConfig.mk 2 20) (warmUp [some 0, some 1])
          (([PoolOp.acquireOp none] : List (PoolOp Nat)).take 1)).total_connections) :=
  ⟨by decide, by decide, by decide,
    pool_invariant_monotone Nat inferInstance (PoolConfig.mk 2 20)
      [some 0, some 1] [PoolOp.acquireOp none] 0 1 (by decide) (by decide)
      (by decide)⟩

/-- Claim C3: an `acquire` step returns an absent result exactly when the
available queue is empty and either the pool is at capacity or the factory
call fails (the factory exception is absorbed into the absent result — the
step is a total function, no error escapes); absent outcomes bump the
failed-acquisition counter by one and successful outcomes bump the
successful-acquisition counter by one. -/
theorem acquire_failure_semantics :
    ∀ (H : Type) (cfg : PoolConfig) (s : PoolState H) (factory : Option H),
      ((acquire cfg s factory).1 = none ↔
        s.available = [] ∧
          (cfg.max_connections ≤ s.total_connections ∨ factory = none)) ∧
      (acquire cfg s factory).2.failed_acquisitions =
        s.failed_acquisitions +
          (if (acquire cfg s factory).1.isNone then 1 else 0) ∧
      (acquire cfg s factory).2.successful_acquisitions =
        s.successful_acquisitions +
          (if (acquire cfg s factory).1.isNone then 0 else 1) := by
  intro H cfg s factory
  unfold acquire
  cases hav : s.available with
  | cons conn rest => simp
  | nil =>
    by_cases hlt : s.total_connections < cfg.max_connections
    · simp only [hlt, if_true]
      cases factory with
      | some conn => simp; omega
      | none => simp
    · simp only [hlt, if_false]
      simp
      omega

/-! ### SELECT-path refinement (claim C4) -/

theorem filterMap_id_cons {α : Type} (o : Option α) (l : List (Option α)) :
    (o :: l).filterMap id = o.toList ++ l.filterMap id := by
  cases o <;> simp

theorem ite_none_toList {c : Prop} [inst : Decidable c] {α : Type} (x : α) :
    (if c then (none : Option α) else some x).toList =
      if c then [] else [x] := by
  split <;> simp

theorem opt_piece_toList (o : Option String) (pre : String) :
    (match o with
      | some t => if t = "" then (none : Option String) else some (pre ++ t)
      | none => none).toList =
      match o with
      | some t => if t = "" then [] else [pre ++ t]
      | none => [] := by
  cases o with
  | none => rfl
  | some t => by_cases h : t = "" <;> simp [h]

theorem map_opt_toList {α β : Type} (o : Option α) (f : α → β) :
    (o.map f).toList = match o with | some n => [f n] | none => [] := by
  cases o <;> rfl

theorem filterMap_id_some {α : Type} (l : List α) :
    List.filterMap (id ∘ some) l = l := by simp

/-- Claim C4: the SELECT build path emits the spec's fragments in the spec's fixed
order with absent fragments omitted and the present ones space-joined
(`specSelectRender` is that wording verbatim), and the spec's example chain
produces exactly its stated string. -/
theorem select_build_order :
    (∀ b : QueryBuilder, b.build_select = specSelectRender b) ∧
    QueryBuilder.build (((((QueryBuilder.empty.select ["a", "b"]).from_table
        "t").where_field "x" ">" (.intV 5)).order_by "a" .DESC).limit 10) =
      .ok "SELECT a, b FROM t WHERE x > 5 ORDER BY a DESC LIMIT 10" := by
  refine ⟨?_, rfl⟩
  intro b
  rcases b with ⟨qt, sc, ft, wc, js, gb, hc, ob, lc, oc, tt, sd, ir⟩
  unfold QueryBuilder.build_select specSelectRender specSelectFragments
  simp only [List.filterMap_append, filterMap_id_cons, List.filterMap_nil,
    List.filterMap_map, List.append_nil, Option.toList_some, ite_none_toList,
    opt_piece_toList, map_opt_toList, filterMap_id_some]
  simp only [List.append_assoc, List.singleton_append, List.cons_append,
    List.nil_append]
  cases ft <;> cases hc <;> cases lc <;> cases oc <;> rfl

end PyDB
